import Mathlib

/-!
Verification development for the goobie-mysql connection engine.

The definitions below are a shallow embedding of the Rust sources under
src/: the connection state machine (src/conn/state.rs, src/conn/mod.rs),
the transient-failure classifier and the reconnection loop
(src/conn/query.rs), the connect routine (src/conn/connect.rs), the ping
routine (src/conn/ping.rs), and the transaction lease (src/conn/transaction.rs).
Network outcomes (whether a connect, query or ping round-trip succeeds) are
passed in as explicit oracle arguments; everything else is translated
directly from the source.
-/

namespace GoobieMysql

/-- Connection lifecycle state. The enum in src/conn/state.rs lists
Connected, Connecting, NotConnected and Disconnected; src/conn/mod.rs
(Conn.start failure path and the is_error method) additionally stores and
tests a State.Error value, so the state type of the codebase carries all
five values. -/
inductive State
  | Connected
  | Connecting
  | NotConnected
  | Disconnected
  | Error
  deriving DecidableEq, Repr

/-- The std io ErrorKind values inspected by should_reconnect in
src/conn/query.rs: the seven kinds of its matches! arm, together with
representative further kinds that fall to the default arm. -/
inductive IoErrorKind
  | ConnectionRefused
  | ConnectionReset
  | ConnectionAborted
  | NotConnected
  | TimedOut
  | BrokenPipe
  | UnexpectedEof
  | WouldBlock
  | Interrupted
  | PermissionDenied
  | AddrInUse
  | InvalidData
  | OtherKind
  deriving DecidableEq, Repr

/-- The sqlx Error variants distinguished by should_reconnect: an Io error
with its kind, a Tls error with its display message, a Database error
carrying the MySQL vendor code when the error downcasts to
MySqlDatabaseError (none when the downcast fails), and any other variant. -/
inductive SqlxError
  | Io (kind : IoErrorKind)
  | Tls (msg : String)
  | Database (mysqlCode : Option Nat)
  | OtherVariant
  deriving DecidableEq, Repr

/-- An anyhow Error as inspected by should_reconnect: either it downcasts
to a sqlx Error or it does not. -/
inductive GError
  | sqlx (e : SqlxError)
  | other (msg : String)
  deriving DecidableEq, Repr

/-- Boolean substring test, modelling the str contains calls of the Tls
arm of should_reconnect. -/
def containsSubstr (s pat : String) : Bool :=
  s.toList.tails.any fun t => pat.toList.isPrefixOf t

/-- Translation of should_reconnect (src/conn/query.rs lines 13 to 55):
an error is worth a reconnect when it is a sqlx Io error of one of seven
kinds, a sqlx Tls error whose message contains one of three fragments, or
a sqlx Database error that downcasts to a MySQL error with vendor code
2002, 2003, 2006, 2013 or 2055. -/
def should_reconnect (e : GError) : Bool :=
  match e with
  | .other _ => false
  | .sqlx sqlxE =>
    match sqlxE with
    | .Io kind =>
      match kind with
      | .ConnectionRefused | .ConnectionReset | .ConnectionAborted
      | .NotConnected | .TimedOut | .BrokenPipe | .UnexpectedEof => true
      | _ => false
    | .Tls msg =>
      containsSubstr msg "handshake failed"
        || containsSubstr msg "connection closed"
        || containsSubstr msg "unexpected EOF"
    | .Database mysqlCode =>
      match mysqlCode with
      | some code =>
        code == 2002 || code == 2003 || code == 2006 || code == 2013 || code == 2055
      | none => false
    | .OtherVariant => false

/-- The transport-level io kinds of the spec allow-list. -/
def transportKinds : List IoErrorKind :=
  [.ConnectionRefused, .ConnectionReset, .ConnectionAborted, .NotConnected,
   .TimedOut, .BrokenPipe, .UnexpectedEof]

/-- The MySQL vendor codes of the spec allow-list. -/
def transientMySqlCodes : List Nat := [2002, 2003, 2006, 2013, 2055]

/-- The spec description of the transient classification, stated from the
spec wording to be compared with should_reconnect: a transport-level io
error whose kind is in the fixed list, a secure-transport error whose
message indicates handshake failure, connection closed or unexpected end
of stream, or a database error whose MySQL vendor code is in the fixed
list. -/
def specTransient (e : GError) : Prop :=
  (∃ kind, e = .sqlx (.Io kind) ∧ kind ∈ transportKinds) ∨
  (∃ msg, e = .sqlx (.Tls msg) ∧
    (containsSubstr msg "handshake failed" = true ∨
     containsSubstr msg "connection closed" = true ∨
     containsSubstr msg "unexpected EOF" = true)) ∨
  (∃ code, e = .sqlx (.Database (some code)) ∧ code ∈ transientMySqlCodes)

/-- C1: the transient-failure classifier is exactly the spec fixed
allow-list: for every error e, should_reconnect classifies e as transient
if and only if e is a transport io error of one of the seven listed kinds,
a secure-transport error whose message indicates handshake failure,
connection closed or unexpected end of stream, or a database error whose
MySQL vendor code is 2002, 2003, 2006, 2013 or 2055; every other error is
non-transient. -/
theorem should_reconnect_iff_spec_allow_list (e : GError) :
    should_reconnect e = true ↔ specTransient e := by
  cases e with
  | other m => simp [should_reconnect, specTransient]
  | sqlx s =>
    cases s with
    | Io kind =>
      cases kind <;> simp [should_reconnect, specTransient, transportKinds]
    | Tls msg =>
      simp only [should_reconnect, specTransient]
      simp
      tauto
    | OtherVariant => simp [should_reconnect, specTransient]
    | Database c =>
      cases c with
      | none => simp [should_reconnect, specTransient]
      | some code =>
        simp [should_reconnect, specTransient, transientMySqlCodes]
        tauto

instance : DecidableEq (Except GError Unit) := fun a b =>
  match a, b with
  | .ok (), .ok () => isTrue rfl
  | .error ea, .error eb =>
    if h : ea = eb then isTrue (by rw [h])
    else isFalse (by intro hc; cases hc; exact h rfl)
  | .ok (), .error _ => isFalse (by intro hc; cases hc)
  | .error _, .ok () => isFalse (by intro hc; cases hc)

/-- Payload delivered to a Lua callback through the task queue. -/
inductive Delivered
  | notOpen
  | result (res : Except GError Unit)
  | connectOk
  | connectErr (e : GError)
  | pingOk (latencyMicros : Nat)
  | pingErr (e : GError)
  deriving DecidableEq, Repr

/-- One queued callback invocation: which Lua reference is called and what
it receives. -/
structure TaskItem where
  callback : Nat
  payload : Delivered
  deriving DecidableEq, Repr

/-- The actor-visible connection data threaded through connect, query and
ping in src/conn: the owned connection object (abstracted to Option Unit),
the shared ConnMeta fields state and generation id, and the task queue of
pending Lua callbacks. ConnMeta fields not read by the embedded routines
(connect options, logging host) are omitted. -/
structure MachineA where
  conn : Option Unit
  state : State
  gen : Nat
  taskQueue : List TaskItem
  deriving DecidableEq, Repr

/-- Whether a connect outcome is a success. -/
def connOk (res : Except GError Unit) : Bool :=
  match res with
  | .ok _ => true
  | .error _ => false

/-- Translation of connect (src/conn/connect.rs lines 12 to 61): close and
drop any old connection, set state Connecting, then attempt to establish a
new connection (outcome given by the oracle res). On success store the new
connection, increment the generation id and set state Connected; on
failure set state NotConnected. With callback none (LUA_NOREF) the routine
returns whether the connect succeeded; with a callback it queues the
success or error callback and returns true. -/
def connectA (m : MachineA) (callback : Option Nat) (res : Except GError Unit) :
    MachineA × Bool :=
  let m1 : MachineA := { m with conn := none, state := State.Connecting }
  match res with
  | .ok _ =>
    let m2 : MachineA :=
      { m1 with conn := some (), gen := m1.gen + 1, state := State.Connected }
    match callback with
    | none => (m2, true)
    | some cb =>
      ({ m2 with taskQueue := m2.taskQueue ++ [⟨cb, Delivered.connectOk⟩] }, true)
  | .error e =>
    let m2 : MachineA := { m1 with state := State.NotConnected }
    match callback with
    | none => (m2, false)
    | some cb =>
      ({ m2 with taskQueue := m2.taskQueue ++ [⟨cb, Delivered.connectErr e⟩] }, true)

/-- The reconnection loop of query (src/conn/query.rs lines 109 to 131):
up to fuel attempts; each iteration sleeps the current delay, increments
the delay, and calls connect with no callback; the loop stops at the first
success. Returns the machine after the loop, the list of slept delays in
seconds, and the reconnected flag. The oracle attempt gives the outcome of
attempt number i. The source enters with fuel 7 and delay 2. -/
def reconnectLoop (fuel delay : Nat) (m : MachineA)
    (attempt : Nat → Except GError Unit) (i : Nat) :
    MachineA × List Nat × Bool :=
  match fuel with
  | 0 => (m, [], false)
  | Nat.succ f =>
    let step := connectA m none (attempt i)
    if step.2 then (step.1, [delay], true)
    else
      let rest := reconnectLoop f (delay + 1) step.1 attempt (i + 1)
      (rest.1, delay :: rest.2.1, rest.2.2)

/-- The transient test applied by query to its result: failures are
classified by should_reconnect, successes never reconnect. -/
def transientOf (res : Except GError Unit) : Bool :=
  match res with
  | .error e => should_reconnect e
  | .ok _ => false

/-- Ghost observations of one run of query: the delays slept by the
reconnection loop, how many reconnect attempts were made, whether the
state was stored NotConnected after the confirming ping, whether some
attempt reconnected, how many times the SQL text was executed, and whether
a confirming ping was issued. -/
structure QTrace where
  delays : List Nat
  attempts : Nat
  markedDead : Bool
  reconnected : Bool
  queryRuns : Nat
  pinged : Bool
  deriving DecidableEq, Repr

/-- The conditional store of State.NotConnected performed by query after
the confirming ping fails. -/
def markDead (m : MachineA) (b : Bool) : MachineA :=
  if b then { m with state := State.NotConnected } else m

/-- Pushing one deferred callback onto the task queue. -/
def enqueue (m : MachineA) (t : TaskItem) : MachineA :=
  { m with taskQueue := m.taskQueue ++ [t] }

/-- Translation of query (src/conn/query.rs lines 57 to 132). With no
connection object, a connection-is-not-open error is queued to the query
callback and nothing else happens. Otherwise the query runs exactly once
(outcome given by the oracle res); on a failure classified transient by
should_reconnect a confirming ping is issued and, when that ping fails,
state is stored NotConnected; the query result is then queued to the
query callback; finally, when the failure was classified transient, the
reconnection loop runs with 7 attempts starting at delay 2. -/
def queryStep (m : MachineA) (cb : Nat) (res : Except GError Unit)
    (pingOk : Bool) (attempt : Nat → Except GError Unit) :
    MachineA × QTrace :=
  match m.conn with
  | none =>
    (enqueue m ⟨cb, Delivered.notOpen⟩, ⟨[], 0, false, false, 0, false⟩)
  | some _ =>
    let transient : Bool := transientOf res
    let marked : Bool := transient && !pingOk
    let m2 : MachineA := enqueue (markDead m marked) ⟨cb, Delivered.result res⟩
    if transient then
      let loop := reconnectLoop 7 2 m2 attempt 0
      (loop.1, ⟨loop.2.1, loop.2.1.length, marked, loop.2.2, 1, true⟩)
    else
      (m2, ⟨[], 0, marked, false, 1, false⟩)

/-- Translation of ping (src/conn/ping.rs lines 9 to 47): with no
connection object a connection-is-not-open error is queued to the given
callback; otherwise one ping round-trip runs (outcome res) and its result,
with the measured latency, is queued. The returned flag records whether a
network round-trip was made. -/
def pingStep (m : MachineA) (cb : Nat) (res : Except GError Unit)
    (latencyMicros : Nat) : MachineA × Bool :=
  match m.conn with
  | none => (enqueue m ⟨cb, Delivered.notOpen⟩, false)
  | some _ =>
    match res with
    | .ok _ => (enqueue m ⟨cb, Delivered.pingOk latencyMicros⟩, true)
    | .error e => (enqueue m ⟨cb, Delivered.pingErr e⟩, true)

theorem connectA_none_flag (m : MachineA) (res : Except GError Unit) :
    (connectA m none res).2 = connOk res := by
  cases res <;> rfl

theorem connectA_gen (m : MachineA) (cb : Option Nat) (res : Except GError Unit) :
    (connectA m cb res).1.gen = m.gen + (if connOk res then 1 else 0) := by
  cases res <;> cases cb <;> rfl

theorem connectA_none_queue (m : MachineA) (res : Except GError Unit) :
    (connectA m none res).1.taskQueue = m.taskQueue := by
  cases res <;> rfl

theorem reconnectLoop_delays (fuel delay : Nat) (m : MachineA)
    (attempt : Nat → Except GError Unit) (i : Nat) :
    (reconnectLoop fuel delay m attempt i).2.1 =
      List.range' delay (reconnectLoop fuel delay m attempt i).2.1.length ∧
    (reconnectLoop fuel delay m attempt i).2.1.length ≤ fuel := by
  induction fuel generalizing delay m i with
  | zero => simp [reconnectLoop]
  | succ f ih =>
    cases ha : attempt i with
    | ok u =>
      cases u
      simp [reconnectLoop, ha, connectA, List.range'_succ]
    | error e =>
      have h2 := ih (delay + 1)
        { m with conn := none, state := State.NotConnected } (i + 1)
      simp only [reconnectLoop, ha, connectA] at h2 ⊢
      simp only [Bool.false_eq_true, if_false, List.length_cons]
      refine ⟨?_, Nat.succ_le_succ h2.2⟩
      rw [List.range'_succ]
      exact congrArg (delay :: ·) h2.1

theorem reconnectLoop_frame (fuel delay : Nat) (m : MachineA)
    (attempt : Nat → Except GError Unit) (i : Nat) :
    (reconnectLoop fuel delay m attempt i).1.taskQueue = m.taskQueue ∧
    (reconnectLoop fuel delay m attempt i).1.gen =
      m.gen + (if (reconnectLoop fuel delay m attempt i).2.2 then 1 else 0) := by
  induction fuel generalizing delay m i with
  | zero => simp [reconnectLoop]
  | succ f ih =>
    cases ha : attempt i with
    | ok u =>
      cases u
      simp [reconnectLoop, ha, connectA]
    | error e =>
      have h2 := ih (delay + 1)
        { m with conn := none, state := State.NotConnected } (i + 1)
      simp only [reconnectLoop, ha, connectA] at h2 ⊢
      simpa using h2

theorem reconnectLoop_all_fail (fuel delay : Nat) (m : MachineA)
    (attempt : Nat → Except GError Unit) (i : Nat)
    (h : ∀ j, j < fuel → connOk (attempt (i + j)) = false) :
    (reconnectLoop fuel delay m attempt i).2.2 = false ∧
    (reconnectLoop fuel delay m attempt i).2.1.length = fuel ∧
    (0 < fuel → (reconnectLoop fuel delay m attempt i).1.state = State.NotConnected) ∧
    (fuel = 0 → (reconnectLoop fuel delay m attempt i).1 = m) := by
  induction fuel generalizing delay m i with
  | zero => simp [reconnectLoop]
  | succ f ih =>
    have h0 : connOk (attempt i) = false := by
      have := h 0 (by omega)
      simpa using this
    cases ha : attempt i with
    | ok u => rw [ha] at h0; simp [connOk] at h0
    | error e =>
      have hshift : ∀ j, j < f → connOk (attempt (i + 1 + j)) = false := by
        intro j hj
        have := h (j + 1) (by omega)
        have harg : i + (j + 1) = i + 1 + j := by omega
        rwa [harg] at this
      have h2 := ih (delay + 1)
        { m with conn := none, state := State.NotConnected } (i + 1) hshift
      simp only [reconnectLoop, ha, connectA] at h2 ⊢
      simp only [Bool.false_eq_true, if_false, List.length_cons]
      refine ⟨h2.1, by omega, fun _ => ?_, fun hc => by omega⟩
      rcases Nat.eq_zero_or_pos f with hf | hf
      · rw [h2.2.2.2 hf]
      · exact h2.2.2.1 hf

theorem reconnectLoop_first_success (fuel delay : Nat) (m : MachineA)
    (attempt : Nat → Except GError Unit) (i j : Nat)
    (hj : j < fuel) (hok : connOk (attempt (i + j)) = true)
    (hbefore : ∀ k, k < j → connOk (attempt (i + k)) = false) :
    (reconnectLoop fuel delay m attempt i).2.2 = true ∧
    (reconnectLoop fuel delay m attempt i).2.1.length = j + 1 := by
  induction fuel generalizing delay m i j with
  | zero => omega
  | succ f ih =>
    cases j with
    | zero =>
      have h0 : connOk (attempt i) = true := by simpa using hok
      cases ha : attempt i with
      | ok u =>
        cases u
        simp [reconnectLoop, ha, connectA]
      | error e => rw [ha] at h0; simp [connOk] at h0
    | succ jj =>
      have h0 : connOk (attempt i) = false := by
        have := hbefore 0 (by omega)
        simpa using this
      cases ha : attempt i with
      | ok u => rw [ha] at h0; simp [connOk] at h0
      | error e =>
        have hok2 : connOk (attempt (i + 1 + jj)) = true := by
          have harg : i + 1 + jj = i + (jj + 1) := by omega
          rwa [harg]
        have hbefore2 : ∀ k, k < jj → connOk (attempt (i + 1 + k)) = false := by
          intro k hk
          have := hbefore (k + 1) (by omega)
          have harg : i + (k + 1) = i + 1 + k := by omega
          rwa [harg] at this
        have h2 := ih (delay + 1)
          { m with conn := none, state := State.NotConnected } (i + 1) jj
          (by omega) hok2 hbefore2
        simp only [reconnectLoop, ha, connectA] at h2 ⊢
        simp only [Bool.false_eq_true, if_false, List.length_cons]
        exact ⟨h2.1, by omega⟩

theorem reconnectLoop_length_pos (fuel delay : Nat) (m : MachineA)
    (attempt : Nat → Except GError Unit) (i : Nat) (h : 0 < fuel) :
    0 < (reconnectLoop fuel delay m attempt i).2.1.length := by
  cases fuel with
  | zero => omega
  | succ f =>
    cases ha : attempt i with
    | ok u => cases u; simp [reconnectLoop, ha, connectA]
    | error e => simp [reconnectLoop, ha, connectA]

/-- A concrete connected machine used by witnesses and counterexamples. -/
def mA0 : MachineA :=
  { conn := some (), state := State.Connected, gen := 0, taskQueue := [] }

/-- An attempt oracle where every reconnect attempt fails. -/
def failAttempt : Nat → Except GError Unit := fun _ => .error (.sqlx .OtherVariant)

/-- A transient-classified query failure: a connection-reset io error. -/
def resetFailure : Except GError Unit := .error (.sqlx (.Io .ConnectionReset))

/-- C3: the recovery loop as entered by query (fuel 7, delay 2) makes at
most 7 attempts; the slept delays count up from 2 by one second per
attempt; when all 7 attempts fail the delays are exactly 2,3,4,5,6,7,8,
the reconnected flag is false, the state is left NotConnected and nothing
is queued (the loop gives up silently, logs only); and the loop stops at
the first successful attempt (first success at attempt j means exactly
j+1 sleeps were made). -/
theorem reconnect_loop_backoff_and_give_up (m : MachineA)
    (attempt : Nat → Except GError Unit) :
    (reconnectLoop 7 2 m attempt 0).2.1.length ≤ 7 ∧
    (reconnectLoop 7 2 m attempt 0).2.1 =
      List.range' 2 (reconnectLoop 7 2 m attempt 0).2.1.length ∧
    ((∀ j, j < 7 → connOk (attempt j) = false) →
      (reconnectLoop 7 2 m attempt 0).2.1 = [2, 3, 4, 5, 6, 7, 8] ∧
      (reconnectLoop 7 2 m attempt 0).2.2 = false ∧
      (reconnectLoop 7 2 m attempt 0).1.state = State.NotConnected ∧
      (reconnectLoop 7 2 m attempt 0).1.taskQueue = m.taskQueue) ∧
    (∀ j, j < 7 → connOk (attempt j) = true →
      (∀ k, k < j → connOk (attempt k) = false) →
      (reconnectLoop 7 2 m attempt 0).2.2 = true ∧
      (reconnectLoop 7 2 m attempt 0).2.1.length = j + 1) := by
  refine ⟨(reconnectLoop_delays 7 2 m attempt 0).2,
    (reconnectLoop_delays 7 2 m attempt 0).1, fun hall => ?_, fun j hj hok hb => ?_⟩
  · have hfail := reconnectLoop_all_fail 7 2 m attempt 0 (by simpa using hall)
    have hlen : (reconnectLoop 7 2 m attempt 0).2.1.length = 7 := hfail.2.1
    refine ⟨?_, hfail.1, hfail.2.2.1 (by omega), (reconnectLoop_frame 7 2 m attempt 0).1⟩
    have := (reconnectLoop_delays 7 2 m attempt 0).1
    rw [hlen] at this
    simpa using this
  · exact reconnectLoop_first_success 7 2 m attempt 0 j hj (by simpa using hok)
      (by simpa using hb)

theorem reconnect_loop_backoff_and_give_up_witness :
    (reconnectLoop 7 2 mA0 failAttempt 0).2.1 = [2, 3, 4, 5, 6, 7, 8] :=
  ((reconnect_loop_backoff_and_give_up mA0 failAttempt).2.2.1 (by decide)).1

/-- C4: the generation id grows by exactly 1 on a successful connect
attempt and not at all on a failed one, in either callback mode; a full
run of the recovery loop therefore raises it by exactly 1 when some
attempt succeeds (the loop stops there) and leaves it unchanged when all
attempts fail; in particular the counter never decreases. -/
theorem generation_bumped_once_per_successful_connect (m : MachineA)
    (cb : Option Nat) (res : Except GError Unit)
    (attempt : Nat → Except GError Unit) :
    (connectA m cb res).1.gen = m.gen + (if connOk res then 1 else 0) ∧
    (reconnectLoop 7 2 m attempt 0).1.gen =
      m.gen + (if (reconnectLoop 7 2 m attempt 0).2.2 then 1 else 0) ∧
    m.gen ≤ (connectA m cb res).1.gen ∧
    m.gen ≤ (reconnectLoop 7 2 m attempt 0).1.gen := by
  refine ⟨connectA_gen m cb res, (reconnectLoop_frame 7 2 m attempt 0).2, ?_, ?_⟩
  · rw [connectA_gen m cb res]
    omega
  · rw [(reconnectLoop_frame 7 2 m attempt 0).2]
    omega

/-- C2 counterexample: on a connected machine a query fails with a
connection reset (classified transient) while the confirming ping
succeeds; the claim says that with a successful ping no recovery begins,
but the code still enters the recovery loop (all 7 attempts are made
here), even though the state was indeed not marked NotConnected. -/
theorem ping_gate_counterexample :
    (queryStep mA0 1 resetFailure true failAttempt).2.attempts = 7 ∧
    (queryStep mA0 1 resetFailure true failAttempt).2.markedDead = false := by
  decide

/-- C2 amended: for every query run on an existing connection, a
confirming ping is issued exactly when the failure is classified
transient, and the state is marked NotConnected exactly when that ping
also fails; but the recovery loop begins on every transient
classification regardless of the ping outcome (at least one reconnect
attempt is made), and a non-transient failure never triggers any
reconnect attempt. -/
theorem ping_gates_only_death_marking (m : MachineA) (cb : Nat)
    (res : Except GError Unit) (pingOk : Bool)
    (attempt : Nat → Except GError Unit) (h : m.conn = some ()) :
    (queryStep m cb res pingOk attempt).2.pinged = transientOf res ∧
    (queryStep m cb res pingOk attempt).2.markedDead =
      (transientOf res && !pingOk) ∧
    ((queryStep m cb res pingOk attempt).2.attempts ≠ 0 ↔
      transientOf res = true) := by
  obtain ⟨mc, ms, mg, mq⟩ := m
  simp only at h
  subst h
  cases ht : transientOf res with
  | false => simp [queryStep, ht]
  | true =>
    refine ⟨by simp [queryStep, ht], by simp [queryStep, ht], fun _ => rfl, ?_⟩
    intro _
    simp only [queryStep, ht, if_true]
    exact Nat.pos_iff_ne_zero.mp (reconnectLoop_length_pos 7 2 _ attempt 0 (by omega))

theorem ping_gates_only_death_marking_witness :
    (queryStep mA0 1 resetFailure true failAttempt).2.pinged =
      transientOf resetFailure :=
  (ping_gates_only_death_marking mA0 1 resetFailure true failAttempt rfl).1

/-- C7: when a connection object exists, query appends exactly one task
item, carrying its own outcome, addressed to its own callback, and this
happens whether or not the failure was transient and whether or not
reconnection later succeeds; and the query text is executed exactly once
(the recovery loop never re-executes it). -/
theorem query_error_delivered_never_retried (m : MachineA) (cb : Nat)
    (res : Except GError Unit) (pingOk : Bool)
    (attempt : Nat → Except GError Unit) (h : m.conn = some ()) :
    (queryStep m cb res pingOk attempt).1.taskQueue =
      m.taskQueue ++ [⟨cb, Delivered.result res⟩] ∧
    (queryStep m cb res pingOk attempt).2.queryRuns = 1 := by
  obtain ⟨mc, ms, mg, mq⟩ := m
  simp only at h
  subst h
  cases ht : transientOf res with
  | false =>
    cases hm : (transientOf res && !pingOk) <;>
      simp [queryStep, ht, hm, enqueue, markDead]
  | true =>
    refine ⟨?_, by simp [queryStep, ht]⟩
    simp only [queryStep, ht, if_true]
    rw [(reconnectLoop_frame 7 2 _ attempt 0).1]
    cases hp : pingOk <;> simp [enqueue, markDead, hp]

theorem query_error_delivered_never_retried_witness :
    (queryStep mA0 1 resetFailure false failAttempt).1.taskQueue =
      mA0.taskQueue ++ [⟨1, Delivered.result resetFailure⟩] :=
  (query_error_delivered_never_retried mA0 1 resetFailure false failAttempt rfl).1

/-- C9: a query or a ping attempted with no underlying connection object
queues a locally synthesized connection-is-not-open error to its own
callback, makes no network round-trip and no reconnect attempt, executes
nothing, and leaves the connection object, state and generation id
unchanged. -/
theorem not_open_error_without_network (m : MachineA) (cb cb2 : Nat)
    (res resP : Except GError Unit) (pingOk : Bool)
    (attempt : Nat → Except GError Unit) (latencyMicros : Nat)
    (h : m.conn = none) :
    queryStep m cb res pingOk attempt =
      ({ m with taskQueue := m.taskQueue ++ [⟨cb, Delivered.notOpen⟩] },
       ⟨[], 0, false, false, 0, false⟩) ∧
    pingStep m cb2 resP latencyMicros =
      ({ m with taskQueue := m.taskQueue ++ [⟨cb2, Delivered.notOpen⟩] }, false) := by
  obtain ⟨mc, ms, mg, mq⟩ := m
  simp only at h
  subst h
  constructor
  · simp [queryStep, enqueue]
  · simp [pingStep, enqueue]

theorem not_open_error_without_network_witness :
    queryStep { mA0 with conn := none } 1 resetFailure true failAttempt =
      ({ mA0 with
          conn := none
          taskQueue := mA0.taskQueue ++ [⟨1, Delivered.notOpen⟩] },
       ⟨[], 0, false, false, 0, false⟩) :=
  (not_open_error_without_network { mA0 with conn := none } 1 2 resetFailure
    resetFailure true failAttempt 0 rfl).1

/-- The Conn struct of src/conn/mod.rs as needed by the embedded methods:
the inner connection slot, the lifecycle state, and the coroutine
reference of a running transaction (none models LUA_NOREF). The connect
options and traceback fields are omitted. -/
structure ConnB where
  inner : Option Unit
  state : State
  transaction_coroutine_ref : Option Nat
  deriving DecidableEq, Repr

/-- Result of one call of Conn.start: the connection afterwards, the
value returned to the caller (whose error start_connect and
start_connect_sync deliver to the requester continuation), and whether a
network connect was attempted. -/
structure StartResult where
  conn : ConnB
  res : Except GError Unit
  attempted : Bool

/-- Translation of Conn.start (src/conn/mod.rs lines 127 to 159): when
the state is already Connecting, return Ok immediately and touch nothing;
otherwise take and close any existing inner connection, set state
Connecting and attempt to connect (outcome given by the oracle). On
success store the new connection and set state Connected; on failure
leave the inner slot empty, set state Error and return the error. -/
def Conn.start (c : ConnB) (outcome : Except GError Unit) : StartResult :=
  if c.state = State.Connecting then ⟨c, .ok (), false⟩
  else
    let c1 : ConnB := { c with inner := none, state := State.Connecting }
    match outcome with
    | .ok _ => ⟨{ c1 with inner := some (), state := State.Connected }, .ok (), true⟩
    | .error e => ⟨{ c1 with state := State.Error }, .error e, true⟩

/-- C8: after a failed connect attempt the error goes back to the
requester (Conn.start returns it, and the connect routine of
src/conn/connect.rs queues it to the given callback), while the resulting
state differs by call path: State.Error on the explicit connect entry
point (Conn.start) and State.NotConnected on the path used by the
reconnect loop (connect of src/conn/connect.rs); and the state type has
an Error value alongside NotConnected, Connecting, Connected and
Disconnected. -/
theorem failed_connect_state_split (c : ConnB) (e : GError) (m : MachineA)
    (cbv : Nat) (s : State) (h : c.state ≠ State.Connecting) :
    (Conn.start c (.error e)).conn.state = State.Error ∧
    (Conn.start c (.error e)).res = .error e ∧
    (connectA m (some cbv) (.error e)).1.state = State.NotConnected ∧
    (connectA m (some cbv) (.error e)).1.taskQueue =
      m.taskQueue ++ [⟨cbv, Delivered.connectErr e⟩] ∧
    (s = State.Connected ∨ s = State.Connecting ∨ s = State.NotConnected ∨
      s = State.Disconnected ∨ s = State.Error) := by
  refine ⟨?_, ?_, rfl, rfl, ?_⟩
  · simp [Conn.start, h]
  · simp [Conn.start, h]
  · cases s <;> simp

/-- A concrete connection used in witnesses. -/
def cB0 : ConnB :=
  { inner := some (), state := State.Connected, transaction_coroutine_ref := none }

theorem failed_connect_state_split_witness :
    (Conn.start cB0 (.error (.sqlx .OtherVariant))).conn.state = State.Error :=
  (failed_connect_state_split cB0 (.sqlx .OtherVariant) mA0 1 State.Error
    (by decide)).1

/-- C10: a connect started while the state is already Connecting returns
success immediately: no connect is attempted and the connection, its
inner object, its state and every other field are returned unchanged. -/
theorem connect_while_connecting_noop (c : ConnB) (outcome : Except GError Unit)
    (h : c.state = State.Connecting) :
    Conn.start c outcome = ⟨c, .ok (), false⟩ := by
  simp [Conn.start, h]

theorem connect_while_connecting_noop_witness :
    Conn.start { cB0 with state := State.Connecting } (.error (.sqlx .OtherVariant)) =
      ⟨{ cB0 with state := State.Connecting }, .ok (), false⟩ :=
  connect_while_connecting_noop { cB0 with state := State.Connecting }
    (.error (.sqlx .OtherVariant)) rfl

/-- A Lua execution thread: the main thread or a coroutine identified by
its registry reference; push_thread returns 1 exactly on the main
thread. -/
structure LuaThread where
  isMain : Bool
  id : Nat
  deriving DecidableEq, Repr

/-- Errors synthesized by the lease checks before any network use. -/
inductive TxError
  | closed
  | wrongCoroutine
  deriving DecidableEq, Repr

/-- The Transaction struct of src/conn/transaction.rs: whether the owned
lock guard on the connection slot is still held, the owning coroutine
reference, the open, sync and finalizing flags (the source field named
open is rendered openFlag, open being reserved in Lean). The parent
connection pointer and the traceback string are omitted. The struct
stores no generation value. -/
structure Transaction where
  conn_guard : Bool
  coroutine_ref : Nat
  openFlag : Bool
  sync : Bool
  finalizing : Bool
  deriving DecidableEq, Repr

/-- Translation of Transaction.is_open: open and not yet finalizing. -/
def Transaction.is_open (t : Transaction) : Bool :=
  t.openFlag && !t.finalizing

/-- Translation of Transaction.extract_userdata (src/conn/transaction.rs
lines 118 to 145): reject with a closed error when the lease is not open
(already closed or finalizing); reject with a lease-violation error when
the access comes from the main thread or from any thread other than the
owning coroutine; otherwise hand the transaction out. -/
def Transaction.extract_userdata (t : Transaction) (cur : LuaThread) :
    Except TxError Unit :=
  if !t.is_open then .error .closed
  else if cur.isMain || !(cur.id == t.coroutine_ref) then .error .wrongCoroutine
  else .ok ()

/-- The access check of Transaction.extract_userdata stated alongside the
generation id current at lease creation and the generation id current at
access time. The two generation arguments are deliberately unused on the
right hand side: the Transaction struct of src/conn/transaction.rs
records no generation value and the Conn struct of src/conn/mod.rs
carries no generation counter, so the source check cannot and does not
consult them; they appear only so that the staleness claim can be
stated. -/
def accessLeaseAtGen (t : Transaction) (cur : LuaThread) :
    Nat → Nat → Except TxError Unit :=
  fun _genAtCreation _genNow => Transaction.extract_userdata t cur

/-- Translation of Transaction.new (src/conn/transaction.rs lines 79 to
104): with no inner connection fail with a connection-closed error;
otherwise issue SET autocommit = 0 and BEGIN (outcome given by the
oracle); on success produce the lease: guard held, bound to the creating
coroutine, open, not finalizing. No generation value is recorded. -/
def Transaction.new (connInner : Option Unit) (coroutine_ref : Nat)
    (beginOutcome : Except GError Unit) : Except GError Transaction :=
  match connInner with
  | none => .error (.other "connection is closed")
  | some _ =>
    match beginOutcome with
    | .error e => .error e
    | .ok _ => .ok ⟨true, coroutine_ref, true, false, false⟩

/-- Outcome of one Lua-facing transaction operation: the transaction
afterwards, its result, the SQL statements sent on the leased connection,
and whether any network round-trip happened. -/
structure TxOpResult (α : Type) where
  txn : Transaction
  res : Except TxError α
  sqlSent : List String
  network : Bool

/-- Translation of the transaction internal_query entry
(src/conn/transaction.rs lines 333 to 383), reduced to its lease logic:
extract_userdata runs first; only when it succeeds is the query text sent
on the leased connection (outcome given by the oracle). -/
def txnQueryOp (t : Transaction) (cur : LuaThread) (sql : String)
    (outcome : Except GError Unit) : TxOpResult (Except GError Unit) :=
  match Transaction.extract_userdata t cur with
  | .error e => ⟨t, .error e, [], false⟩
  | .ok _ => ⟨t, .ok outcome, [sql], true⟩

/-- Translation of the transaction ping entry (src/conn/transaction.rs
lines 309 to 331): extract_userdata runs first; only when it succeeds is
a ping round-trip made. -/
def txnPingOp (t : Transaction) (cur : LuaThread)
    (outcome : Except GError Unit) : TxOpResult (Except GError Unit) :=
  match Transaction.extract_userdata t cur with
  | .error e => ⟨t, .error e, [], false⟩
  | .ok _ => ⟨t, .ok outcome, [], true⟩

/-- The finalize action of src/conn/transaction.rs. -/
inductive Action
  | Commit
  | Rollback
  deriving DecidableEq, Repr

/-- SQL text executed for an action. -/
def Action.sql : Action → String
  | .Commit => "COMMIT;"
  | .Rollback => "ROLLBACK;"

/-- Translation of Transaction.finalize (src/conn/transaction.rs lines
181 to 207): a no-op Ok when the transaction is no longer open; otherwise
clear the open flag, run the action statement, best-effort restore
autocommit, and release the owned guard. The clearing of the parent
connection marker acts on the Conn object and is outside this struct. -/
def Transaction.finalize (t : Transaction) (action : Action)
    (outcome : Except GError Unit) :
    Transaction × Except GError Unit × List String :=
  if !t.openFlag then (t, .ok (), [])
  else
    ({ t with openFlag := false, conn_guard := false },
     outcome, [action.sql, "SET autocommit = 1;"])

/-- Translation of the Lua finalize entry (src/conn/transaction.rs lines
400 to 450): extract_userdata runs first; on success the finalizing flag
is set and Transaction.finalize runs. -/
def txnFinalizeOp (t : Transaction) (cur : LuaThread) (action : Action)
    (outcome : Except GError Unit) : TxOpResult (Except GError Unit) :=
  match Transaction.extract_userdata t cur with
  | .error e => ⟨t, .error e, [], false⟩
  | .ok _ =>
    let t1 : Transaction := { t with finalizing := true }
    let fz := Transaction.finalize t1 action outcome
    ⟨fz.1, .ok fz.2.1, fz.2.2, !fz.2.2.isEmpty⟩

/-- A concrete open lease owned by coroutine 5, and that coroutine. -/
def t0 : Transaction := ⟨true, 5, true, false, false⟩

/-- The thread owning t0. -/
def ownerThread : LuaThread := ⟨false, 5⟩

/-- C5 counterexample: a lease created while the generation id was 0 and
accessed after the generation id has advanced to 1 is accepted by the
access check, not rejected as stale: the check of the source consults
only the open and finalizing flags and the owning coroutine, never a
generation. -/
theorem stale_generation_access_counterexample :
    (0 : Nat) < 1 ∧ accessLeaseAtGen t0 ownerThread 0 1 = Except.ok () :=
  ⟨by omega, rfl⟩

/-- C5 amended: access to a transaction lease is accepted exactly when
the lease is open, not finalizing, and accessed from its owning coroutine
(never from the main thread); the generation id at creation and the
generation id at access time play no role, the source recording no
generation with the lease. -/
theorem lease_access_ignores_generation (t : Transaction) (cur : LuaThread)
    (g1 g2 g3 g4 : Nat) :
    (accessLeaseAtGen t cur g1 g2 = Except.ok () ↔
      (t.openFlag = true ∧ t.finalizing = false ∧ cur.isMain = false ∧
        cur.id = t.coroutine_ref)) ∧
    accessLeaseAtGen t cur g1 g2 = accessLeaseAtGen t cur g3 g4 := by
  refine ⟨?_, rfl⟩
  obtain ⟨tg, tref, topen, tsync, tfin⟩ := t
  obtain ⟨cm, cid⟩ := cur
  simp only [accessLeaseAtGen, Transaction.extract_userdata, Transaction.is_open]
  by_cases hc : cid = tref <;>
    cases topen <;> cases tfin <;> cases cm <;> simp [hc]

/-- C6: every transaction operation (query, ping, commit, rollback)
invoked from the main thread or from a coroutine other than the owner of
the lease, or invoked once the lease is closed or finalizing, is rejected
with a closed or lease-violation error, with no SQL sent and no network
round-trip made. -/
theorem txn_wrong_coroutine_or_closed_rejected (t : Transaction)
    (cur : LuaThread) (sql : String) (action : Action)
    (o1 o2 o3 : Except GError Unit)
    (h : t.openFlag = false ∨ t.finalizing = true ∨ cur.isMain = true ∨
      cur.id ≠ t.coroutine_ref) :
    (∃ e, Transaction.extract_userdata t cur = .error e) ∧
    (txnQueryOp t cur sql o1).sqlSent = [] ∧
    (txnQueryOp t cur sql o1).network = false ∧
    (∃ e, (txnQueryOp t cur sql o1).res = .error e) ∧
    (txnPingOp t cur o2).network = false ∧
    (∃ e, (txnPingOp t cur o2).res = .error e) ∧
    (txnFinalizeOp t cur action o3).sqlSent = [] ∧
    (txnFinalizeOp t cur action o3).network = false ∧
    (∃ e, (txnFinalizeOp t cur action o3).res = .error e) := by
  have hex : ∃ e, Transaction.extract_userdata t cur = Except.error e := by
    unfold Transaction.extract_userdata
    by_cases h1 : (!t.is_open) = true
    · rw [if_pos h1]
      exact ⟨.closed, rfl⟩
    · rw [if_neg h1]
      have h1b : t.openFlag = true ∧ t.finalizing = false := by
        simp [Transaction.is_open] at h1
        exact h1
      have h2 : (cur.isMain || !(cur.id == t.coroutine_ref)) = true := by
        rcases h with h | h | h | h
        · rw [h] at h1b; exact absurd h1b.1 (by simp)
        · rw [h] at h1b; exact absurd h1b.2 (by simp)
        · simp [h]
        · simp [h]
      rw [if_pos h2]
      exact ⟨.wrongCoroutine, rfl⟩
  obtain ⟨e, he⟩ := hex
  refine ⟨⟨e, he⟩, ?_, ?_, ⟨e, ?_⟩, ?_, ⟨e, ?_⟩, ?_, ?_, ⟨e, ?_⟩⟩ <;>
    simp [txnQueryOp, txnPingOp, txnFinalizeOp, he]

theorem txn_wrong_coroutine_or_closed_rejected_witness :
    (txnQueryOp t0 { isMain := false, id := 9 } "SELECT 1" (.ok ())).sqlSent = [] :=
  (txn_wrong_coroutine_or_closed_rejected t0 { isMain := false, id := 9 }
    "SELECT 1" Action.Commit (.ok ()) (.ok ()) (.ok ())
    (by right; right; right; decide)).2.1

end GoobieMysql
